import Mathlib

/-!
Shallow embedding of kittens/transfer/rsync.c, the streaming driver that the
kitty transfer kitten wraps around the external librsync diff engine.

The engine entry point rs_job_iter is external C code whose correctness the
spec assumes; it is modelled here as an abstract pure function of type
Engine: given the opaque engine state, the unconsumed input bytes, the
eof_in flag and the available output space, it returns a result code, a new
engine state, the number of input bytes it consumed, and the list of bytes
it wrote into the output region.  Byte buffers are lists of naturals; the
Python bytearray used as the growable output buffer is a list plus the
write cursor output_size, exactly as iter_job tracks it.  CPython details
(capsule kind checks, refcounting, PyLong conversions) are modelled
explicitly where a claim depends on them.
-/

namespace Rsync

/-- The constant from rsync.c line 14: 64u * 1024u bytes. -/
def IO_BUFFER_SIZE : Nat := 64 * 1024

/-- Result codes of the librsync engine (rs_result).  RS_DONE and RS_BLOCKED
are the two codes the driver treats as successful stops; the remaining
codes are carried abstractly. -/
inductive RsResult where
  | RS_DONE
  | RS_BLOCKED
  | RS_RUNNING
  | RS_IO_ERROR
  | RS_MEM_ERROR
  | RS_INPUT_ENDED
  | RS_CORRUPT
  | RS_INTERNAL_ERROR
  | RS_PARAM_ERROR
  deriving DecidableEq, Repr

/-- What one invocation of the abstract engine (rs_job_iter) reports back:
the result code, the successor engine state, how many of the presented
input bytes it consumed (advancing next_in / shrinking avail_in), and the
bytes it wrote at next_out (shrinking avail_out by their number). -/
structure EngineOut (σ : Type) where
  result : RsResult
  st : σ
  consumed : Nat
  written : List Nat
  deriving DecidableEq, Repr

/-- The abstract engine: state, unconsumed input, eof_in flag, avail_out. -/
abbrev Engine (σ : Type) : Type := σ → List Nat → Bool → Nat → EngineOut σ

/-- The driver state of one iter_job call: the opaque engine state, the
unconsumed suffix of the input chunk (next_in / avail_in), the eof_in flag
computed once at entry, the contents of the output bytearray, and the
cumulative output_size write cursor. -/
structure JobState (σ : Type) where
  engineState : σ
  input : List Nat
  eof_in : Bool
  out : List Nat
  outputSize : Nat
  deriving DecidableEq, Repr

/-- The arguments of one engine invocation, as recorded for the call trace:
which state, which input view, which eof flag and how much output space the
engine was given. -/
structure EngineCall (σ : Type) where
  st : σ
  input : List Nat
  eof_in : Bool
  avail_out : Nat
  deriving DecidableEq, Repr

/-- The engine call the driver makes from state s: avail_out is the space
left in the output bytearray after the write cursor. -/
def mkCall {σ : Type} (s : JobState σ) : EngineCall σ :=
  { st := s.engineState, input := s.input, eof_in := s.eof_in
    avail_out := s.out.length - s.outputSize }

/-- Apply the engine to a recorded call. -/
def callOut {σ : Type} (engine : Engine σ) (c : EngineCall σ) : EngineOut σ :=
  engine c.st c.input c.eof_in c.avail_out

/-- Write w into the byte list at position pos, leaving everything else. -/
def spliceWritten (out : List Nat) (pos : Nat) (w : List Nat) : List Nat :=
  out.take pos ++ w ++ out.drop (pos + w.length)

/-- PyByteArray_Resize: the bytearray keeps its first min(old, new) bytes
and is padded (contents of the fresh region are irrelevant; zeros here). -/
def resizeByteArray (b : List Nat) (n : Nat) : List Nat :=
  b.take n ++ List.replicate (n - b.length) 0

/-- The effect on the driver state of one engine invocation (rsync.c lines
97 to 99): the consumed prefix of the input is dropped, the written bytes
land at the write cursor, and output_size advances by before minus after,
which is the number of bytes written. -/
def applyEngine {σ : Type} (engine : Engine σ) (s : JobState σ) : JobState σ :=
  { engineState := (callOut engine (mkCall s)).st
    input := s.input.drop (callOut engine (mkCall s)).consumed
    eof_in := s.eof_in
    out := spliceWritten s.out s.outputSize (callOut engine (mkCall s)).written
    outputSize := s.outputSize + (callOut engine (mkCall s)).written.length }

/-- The buffer growth of rsync.c line 103: resize the output bytearray to
MAX(IO_BUFFER_SIZE, current size * 2); the cursor and input are untouched,
and afterwards avail_out is the new length minus output_size (lines 105
and 106), which mkCall recomputes. -/
def growOut {σ : Type} (s : JobState σ) : JobState σ :=
  { s with out := resizeByteArray s.out (max IO_BUFFER_SIZE (s.out.length * 2)) }

/-- Outcome of one trip through the while loop body of iter_job. -/
inductive LoopStep (σ : Type) where
  | next (s : JobState σ)
  | finished (done : Bool) (s : JobState σ)
  | engineError (code : RsResult) (s : JobState σ)
  deriving DecidableEq, Repr

/-- One iteration of the while loop of iter_job (rsync.c lines 96 to 111):
run the engine once; on RS_DONE or RS_BLOCKED break out; otherwise, if
unconsumed input remains, grow the output buffer and continue; otherwise
raise RsyncError with the engine result code. -/
def loopIter {σ : Type} (engine : Engine σ) (s : JobState σ) : LoopStep σ :=
  if (callOut engine (mkCall s)).result = RsResult.RS_DONE then
    LoopStep.finished true (applyEngine engine s)
  else if (callOut engine (mkCall s)).result = RsResult.RS_BLOCKED then
    LoopStep.finished false (applyEngine engine s)
  else if (applyEngine engine s).input.isEmpty then
    LoopStep.engineError (callOut engine (mkCall s)).result (applyEngine engine s)
  else
    LoopStep.next (growOut (applyEngine engine s))

/-- Result of running the whole loop.  ok carries the values of the
returned triple together with the final driver state; rsyncError is the
PyErr_SetString(RsyncError, rs_strerror(result)) path; outOfFuel is a
modelling artifact for engines that never stop (the C loop would still be
running). -/
inductive IterOutcome (σ : Type) where
  | ok (done : Bool) (unused_input : Nat) (output_size : Nat) (fin : JobState σ)
  | rsyncError (code : RsResult) (fin : JobState σ)
  | outOfFuel (fin : JobState σ)
  deriving DecidableEq, Repr

/-- The while loop of iter_job, fuel-indexed. -/
def iterLoop {σ : Type} (engine : Engine σ) : Nat → JobState σ → IterOutcome σ
  | 0, s => IterOutcome.outOfFuel s
  | fuel + 1, s =>
    match loopIter engine s with
    | LoopStep.finished done s2 =>
        IterOutcome.ok done s2.input.length s2.outputSize s2
    | LoopStep.engineError code s2 => IterOutcome.rsyncError code s2
    | LoopStep.next s2 => iterLoop engine fuel s2

/-- The trace of engine invocations the loop performs, one entry per
execution of rs_job_iter, derived from the same loopIter dispatch. -/
def iterCalls {σ : Type} (engine : Engine σ) : Nat → JobState σ → List (EngineCall σ)
  | 0, _ => []
  | fuel + 1, s =>
    match loopIter engine s with
    | LoopStep.next s2 => mkCall s :: iterCalls engine fuel s2
    | _ => [mkCall s]

/-- The driver state at entry of iter_job (rsync.c lines 89 to 94): the
whole chunk unconsumed, eof_in true exactly when the chunk is empty, the
output bytearray as passed in, cursor zero. -/
def initState {σ : Type} (st : σ) (input out_arr : List Nat) : JobState σ :=
  { engineState := st, input := input, eof_in := input.isEmpty
    out := out_arr, outputSize := 0 }

/-- A signature object as the driver sees it.  The engine-internal index is
opaque; the one bit of lifecycle state the spec talks about, whether
build-hash-table has been run, is tracked semantically. -/
structure SigObj where
  hash_table_built : Bool
  deriving DecidableEq, Repr

/-- A Python capsule argument: either a JOB_WITH_CALLBACK_CAPSULE holding
an engine job state, or a SIGNATURE_CAPSULE holding a signature.
PyCapsule_GetPointer with the other kind name returns NULL, which the
GET_JOB_FROM_CAPSULE and GET_SIG_FROM_CAPSULE macros turn into TypeError. -/
inductive Capsule (σ : Type) where
  | jobCapsule (st : σ)
  | sigCapsule (s : SigObj)
  deriving DecidableEq, Repr

/-- The kinds of Python exception the modelled entry points can raise.
stateError is in the vocabulary because the spec names it; the driver
never raises it.  fuelExhausted is the modelling artifact for a loop that
has not stopped within the given fuel. -/
inductive PyErrKind where
  | typeError
  | stateError
  | rsyncError (code : RsResult)
  | systemError
  | fuelExhausted
  deriving DecidableEq, Repr

/-- iter_job (rsync.c lines 81 to 114): check the capsule kind, build the
initial buffers, run the loop, and return the (done, unused_input,
output_size) triple, where done is (result == RS_DONE). -/
def iter_job {σ : Type} (engine : Engine σ) (fuel : Nat) (c : Capsule σ)
    (input out_arr : List Nat) : Except PyErrKind (Bool × Nat × Nat) :=
  match c with
  | Capsule.sigCapsule _ => Except.error PyErrKind.typeError
  | Capsule.jobCapsule st =>
    match iterLoop engine fuel (initState st input out_arr) with
    | IterOutcome.ok done unused produced _ => Except.ok (done, unused, produced)
    | IterOutcome.rsyncError code _ => Except.error (PyErrKind.rsyncError code)
    | IterOutcome.outOfFuel _ => Except.error PyErrKind.fuelExhausted

/-- The engine invocations a given iter_job call performs: none at all when
the capsule is of the wrong kind, since GET_JOB_FROM_CAPSULE runs before
any engine work. -/
def iter_jobCalls {σ : Type} (engine : Engine σ) (fuel : Nat) (c : Capsule σ)
    (input out_arr : List Nat) : List (EngineCall σ) :=
  match c with
  | Capsule.sigCapsule _ => []
  | Capsule.jobCapsule st => iterCalls engine fuel (initState st input out_arr)

/-- build_hash_table (rsync.c lines 131 to 142): wrong-kind capsule is
TypeError before the engine is touched; otherwise rs_build_hash_table runs
on the signature and any non RS_DONE result becomes RsyncError.  The
second component is the trace of rs_build_hash_table invocations. -/
def build_hash_table {σ : Type} (rsBuild : SigObj → RsResult × SigObj)
    (c : Capsule σ) : Except PyErrKind SigObj × List SigObj :=
  match c with
  | Capsule.jobCapsule _ => (Except.error PyErrKind.typeError, [])
  | Capsule.sigCapsule s =>
    match rsBuild s with
    | (res, s2) =>
      if res = RsResult.RS_DONE then (Except.ok s2, [s])
      else (Except.error (PyErrKind.rsyncError res), [s])

/-- begin_create_delta (rsync.c lines 144 to 151): wrong-kind capsule is
TypeError; otherwise CREATE_JOB invokes rs_delta_begin on the signature
unconditionally - there is no check that the hash table was built.  When
the engine yields no job the capsule is cleared and the function returns
NULL with no exception set, which CPython reports as SystemError.  The
second component is the trace of rs_delta_begin invocations. -/
def begin_create_delta {σ τ : Type} (rs_delta_begin : SigObj → Option τ)
    (c : Capsule σ) : Except PyErrKind τ × List SigObj :=
  match c with
  | Capsule.jobCapsule _ => (Except.error PyErrKind.typeError, [])
  | Capsule.sigCapsule s =>
    match rs_delta_begin s with
    | some j => (Except.ok j, [s])
    | none => (Except.error PyErrKind.systemError, [s])

/-- What a Python data-source callback invocation can come back with:
raising an exception, or returning some Python value, which is either an
int or something else. -/
inductive PyVal where
  | int (n : Int)
  | other
  deriving DecidableEq, Repr

/-- Outcome of calling the Python callback. -/
inductive CbOutcome where
  | raised
  | returns (v : PyVal)
  deriving DecidableEq, Repr

/-- size_t is 64 bits on the platforms kitty targets. -/
def SIZE_MAX : Nat := 2 ^ 64 - 1

/-- PyLong_AsSize_t: an int in range converts cleanly; a negative or
oversized int yields (size_t)(-1) with a pending OverflowError. -/
def pyLongAsSizeT (n : Int) : Nat × Bool :=
  if 0 ≤ n ∧ n ≤ (SIZE_MAX : Int) then (n.toNat, false) else (SIZE_MAX, true)

/-- What copy_callback hands back to the engine: the rs_result, the value
stored through the len out-parameter, and whether a Python exception was
left pending (the PyLong_AsSize_t overflow path does not clear it).
cb_calls records the (len, pos) arguments of the callback invocation:
the callback receives a writable memoryview of exactly len bytes and the
64-bit offset pos. -/
structure CopyCbOut where
  result : RsResult
  len : Nat
  err_pending : Bool
  cb_calls : List (Nat × Int)
  deriving DecidableEq, Repr

/-- copy_callback (rsync.c lines 153 to 167): build a writable memoryview
of exactly len bytes, call the callback with it and the offset; a raising
callback becomes RS_IO_ERROR with len untouched; a non-int return becomes
RS_INTERNAL_ERROR with len untouched; an int return is pushed through
PyLong_AsSize_t into len with result RS_DONE and no range check at all. -/
def copy_callback (cb : Nat → Int → CbOutcome) (pos : Int) (len : Nat) :
    CopyCbOut :=
  match cb len pos with
  | CbOutcome.raised =>
      { result := RsResult.RS_IO_ERROR, len := len, err_pending := false
        cb_calls := [(len, pos)] }
  | CbOutcome.returns (PyVal.int n) =>
      { result := RsResult.RS_DONE, len := (pyLongAsSizeT n).1
        err_pending := (pyLongAsSizeT n).2, cb_calls := [(len, pos)] }
  | CbOutcome.returns PyVal.other =>
      { result := RsResult.RS_INTERNAL_ERROR, len := len, err_pending := false
        cb_calls := [(len, pos)] }

/-- The job capsule produced by begin_patch: its capsule context holds the
strong reference to the callback. -/
structure JobCapsuleM (α : Type) where
  context : Option α
  deriving DecidableEq, Repr

/-- A refcount operation on a Python object. -/
inductive RefOp (α : Type) where
  | incref (x : α)
  | decref (x : α)
  deriving DecidableEq, Repr

/-- Everything observable about one begin_patch call: the returned capsule
or exception, the refcount operations performed on the callback, and the
rs_patch_begin engine invocations. -/
structure BeginPatchOut (α : Type) where
  result : Except PyErrKind (JobCapsuleM α)
  refOps : List (RefOp α)
  engineCalls : List α
  deriving Repr

/-- begin_patch (rsync.c lines 169 to 174 with CREATE_JOB, lines 33 to 49):
a non-callable argument is TypeError before rs_patch_begin ever runs;
otherwise the job is created, the callback is stored as the capsule
context and Py_INCREF is applied to it.  callable models
PyCallable_Check of the callback object. -/
def begin_patch {α : Type} (rs_patch_begin : α → Option Unit) (cb : α)
    (callable : Bool) : BeginPatchOut α :=
  if callable then
    match rs_patch_begin cb with
    | some _ =>
        { result := Except.ok { context := some cb }
          refOps := [RefOp.incref cb], engineCalls := [cb] }
    | none =>
        { result := Except.error PyErrKind.systemError
          refOps := [], engineCalls := [cb] }
  else
    { result := Except.error PyErrKind.typeError, refOps := [], engineCalls := [] }

/-- free_job_with_callback_capsule (rsync.c lines 17 to 25): on capsule
destruction the stored callback reference is cleared, releasing the strong
reference taken at creation. -/
def free_job_with_callback_capsule {α : Type} (c : JobCapsuleM α) :
    List (RefOp α) :=
  match c.context with
  | some cb => [RefOp.decref cb]
  | none => []

/-- A concrete engine behaviour: consume the whole input and report done at
once. -/
def witEngine : Engine Unit := fun _ inp _ _ =>
  { result := RsResult.RS_DONE, st := (), consumed := inp.length, written := [] }

/-- A concrete engine behaviour for a job whose computation is complete:
every further iteration reports RS_DONE, consumes nothing, writes
nothing. -/
def doneEngine : Engine Unit := fun _ _ _ _ =>
  { result := RsResult.RS_DONE, st := (), consumed := 0, written := [] }

/-- A concrete engine behaviour that always fails with RS_IO_ERROR,
consuming and producing nothing, as rs_job_iter does when the patch
data-source callback keeps raising. -/
def errEngine : Engine Unit := fun _ _ _ _ =>
  { result := RsResult.RS_IO_ERROR, st := (), consumed := 0, written := [] }

/-- A concrete engine behaviour that consumes one byte and reports
RS_RUNNING, driving the loop into its growth branch. -/
def growEngine : Engine Unit := fun _ _ _ _ =>
  { result := RsResult.RS_RUNNING, st := (), consumed := 1, written := [] }

/-- A concrete rs_delta_begin behaviour that always yields a job. -/
def dbAlways : SigObj → Option Unit := fun _ => some ()

/-- A data-source callback returning the Python int 5 whatever is asked. -/
def pyOverCb : Nat → Int → CbOutcome := fun _ _ =>
  CbOutcome.returns (PyVal.int 5)

/-- A data-source callback returning the Python int -1 whatever is asked. -/
def pyNegCb : Nat → Int → CbOutcome := fun _ _ =>
  CbOutcome.returns (PyVal.int (-1))

/-- A data-source callback that always raises. -/
def pyRaiseCb : Nat → Int → CbOutcome := fun _ _ => CbOutcome.raised

/-! Helper lemmas about the embedding. -/

theorem resizeByteArray_length (b : List Nat) (n : Nat) :
    (resizeByteArray b n).length = n := by
  simp only [resizeByteArray, List.length_append, List.length_take,
    List.length_replicate]
  omega

theorem spliceWritten_length (out w : List Nat) (pos : Nat)
    (h : pos + w.length ≤ out.length) :
    (spliceWritten out pos w).length = out.length := by
  simp only [spliceWritten, List.length_append, List.length_take,
    List.length_drop]
  omega

theorem resizeByteArray_take (b : List Nat) (n k : Nat)
    (hk : k ≤ b.length) (hn : b.length ≤ n) :
    (resizeByteArray b n).take k = b.take k := by
  unfold resizeByteArray
  rw [List.take_of_length_le hn, List.take_append_of_le_length hk]

@[simp] theorem applyEngine_engineState {σ : Type} (engine : Engine σ)
    (s : JobState σ) :
    (applyEngine engine s).engineState = (callOut engine (mkCall s)).st := rfl

@[simp] theorem applyEngine_input {σ : Type} (engine : Engine σ)
    (s : JobState σ) :
    (applyEngine engine s).input
      = s.input.drop (callOut engine (mkCall s)).consumed := rfl

@[simp] theorem applyEngine_eof {σ : Type} (engine : Engine σ)
    (s : JobState σ) : (applyEngine engine s).eof_in = s.eof_in := rfl

@[simp] theorem applyEngine_outputSize {σ : Type} (engine : Engine σ)
    (s : JobState σ) :
    (applyEngine engine s).outputSize
      = s.outputSize + (callOut engine (mkCall s)).written.length := rfl

theorem applyEngine_out {σ : Type} (engine : Engine σ) (s : JobState σ) :
    (applyEngine engine s).out
      = spliceWritten s.out s.outputSize (callOut engine (mkCall s)).written :=
  rfl

@[simp] theorem growOut_engineState {σ : Type} (s : JobState σ) :
    (growOut s).engineState = s.engineState := rfl

@[simp] theorem growOut_input {σ : Type} (s : JobState σ) :
    (growOut s).input = s.input := rfl

@[simp] theorem growOut_eof {σ : Type} (s : JobState σ) :
    (growOut s).eof_in = s.eof_in := rfl

@[simp] theorem growOut_outputSize {σ : Type} (s : JobState σ) :
    (growOut s).outputSize = s.outputSize := rfl

theorem growOut_out {σ : Type} (s : JobState σ) :
    (growOut s).out
      = resizeByteArray s.out (max IO_BUFFER_SIZE (s.out.length * 2)) := rfl

@[simp] theorem initState_engineState {σ : Type} (st : σ)
    (input out_arr : List Nat) :
    (initState st input out_arr).engineState = st := rfl

@[simp] theorem initState_input {σ : Type} (st : σ) (input out_arr : List Nat) :
    (initState st input out_arr).input = input := rfl

@[simp] theorem initState_eof {σ : Type} (st : σ) (input out_arr : List Nat) :
    (initState st input out_arr).eof_in = input.isEmpty := rfl

@[simp] theorem initState_out {σ : Type} (st : σ) (input out_arr : List Nat) :
    (initState st input out_arr).out = out_arr := rfl

@[simp] theorem initState_outputSize {σ : Type} (st : σ)
    (input out_arr : List Nat) :
    (initState st input out_arr).outputSize = 0 := rfl

theorem isEmpty_eq_decide_length (l : List Nat) :
    l.isEmpty = decide (l.length = 0) := by
  cases l <;> rfl

theorem getLast?_cons_of_some {α : Type} (a x : α) (l : List α)
    (h : l.getLast? = some x) : (a :: l).getLast? = some x := by
  cases l with
  | nil => simp at h
  | cons b t => rw [List.getLast?_cons_cons]; exact h

/-! Inversion and introduction lemmas for one trip through the loop body. -/

theorem loopIter_finished_inv {σ : Type} (engine : Engine σ)
    (s s2 : JobState σ) (d : Bool)
    (h : loopIter engine s = LoopStep.finished d s2) :
    s2 = applyEngine engine s
    ∧ (callOut engine (mkCall s)).result
        = (if d = true then RsResult.RS_DONE else RsResult.RS_BLOCKED) := by
  unfold loopIter at h
  split at h
  next hres => cases h; exact ⟨rfl, by simp [hres]⟩
  next hres =>
    split at h
    next hres2 => cases h; exact ⟨rfl, by simp [hres2]⟩
    next hres2 =>
      split at h
      next => cases h
      next => cases h

theorem loopIter_error_inv {σ : Type} (engine : Engine σ)
    (s s2 : JobState σ) (code : RsResult)
    (h : loopIter engine s = LoopStep.engineError code s2) :
    s2 = applyEngine engine s
    ∧ code = (callOut engine (mkCall s)).result
    ∧ code ≠ RsResult.RS_DONE
    ∧ code ≠ RsResult.RS_BLOCKED
    ∧ (applyEngine engine s).input = [] := by
  unfold loopIter at h
  split at h
  next => cases h
  next hres =>
    split at h
    next => cases h
    next hres2 =>
      split at h
      next hemp =>
        cases h
        exact ⟨rfl, rfl, hres, hres2, by simpa using hemp⟩
      next => cases h

theorem loopIter_next_inv {σ : Type} (engine : Engine σ) (s s2 : JobState σ)
    (h : loopIter engine s = LoopStep.next s2) :
    s2 = growOut (applyEngine engine s)
    ∧ (callOut engine (mkCall s)).result ≠ RsResult.RS_DONE
    ∧ (callOut engine (mkCall s)).result ≠ RsResult.RS_BLOCKED
    ∧ (applyEngine engine s).input ≠ [] := by
  unfold loopIter at h
  split at h
  next => cases h
  next hres =>
    split at h
    next => cases h
    next hres2 =>
      split at h
      next => cases h
      next hemp => cases h; exact ⟨rfl, hres, hres2, by simpa using hemp⟩

theorem loopIter_done {σ : Type} (engine : Engine σ) (s : JobState σ)
    (h : (callOut engine (mkCall s)).result = RsResult.RS_DONE) :
    loopIter engine s = LoopStep.finished true (applyEngine engine s) := by
  unfold loopIter
  rw [if_pos h]

theorem loopIter_blocked {σ : Type} (engine : Engine σ) (s : JobState σ)
    (h1 : (callOut engine (mkCall s)).result ≠ RsResult.RS_DONE)
    (h : (callOut engine (mkCall s)).result = RsResult.RS_BLOCKED) :
    loopIter engine s = LoopStep.finished false (applyEngine engine s) := by
  unfold loopIter
  rw [if_neg h1, if_pos h]

theorem loopIter_err {σ : Type} (engine : Engine σ) (s : JobState σ)
    (h1 : (callOut engine (mkCall s)).result ≠ RsResult.RS_DONE)
    (h2 : (callOut engine (mkCall s)).result ≠ RsResult.RS_BLOCKED)
    (h3 : (applyEngine engine s).input = []) :
    loopIter engine s
      = LoopStep.engineError (callOut engine (mkCall s)).result
          (applyEngine engine s) := by
  unfold loopIter
  rw [if_neg h1, if_neg h2, if_pos (List.isEmpty_iff.mpr h3)]

theorem loopIter_grow {σ : Type} (engine : Engine σ) (s : JobState σ)
    (h1 : (callOut engine (mkCall s)).result ≠ RsResult.RS_DONE)
    (h2 : (callOut engine (mkCall s)).result ≠ RsResult.RS_BLOCKED)
    (h3 : (applyEngine engine s).input ≠ []) :
    loopIter engine s = LoopStep.next (growOut (applyEngine engine s)) := by
  unfold loopIter
  rw [if_neg h1, if_neg h2, if_neg (by simpa using h3)]

/-! Global facts about the loop, by induction on the fuel. -/

theorem iterCalls_eof {σ : Type} (engine : Engine σ) :
    ∀ (fuel : Nat) (s : JobState σ),
      ((iterCalls engine fuel s).all fun c => c.eof_in == s.eof_in) = true := by
  intro fuel
  induction fuel with
  | zero => intro s; rfl
  | succ n ih =>
    intro s
    cases hl : loopIter engine s with
    | next s2 =>
      have heof : s2.eof_in = s.eof_in := by
        obtain ⟨rfl, -⟩ := loopIter_next_inv engine s s2 hl
        simp
      have htail := ih s2
      rw [heof] at htail
      simp only [iterCalls, hl, List.all_cons, htail, Bool.and_true]
      simp [mkCall]
    | finished d s2 =>
      simp only [iterCalls, hl, List.all_cons, List.all_nil, Bool.and_true]
      simp [mkCall]
    | engineError code s2 =>
      simp only [iterCalls, hl, List.all_cons, List.all_nil, Bool.and_true]
      simp [mkCall]

theorem iterCalls_ne_nil {σ : Type} (engine : Engine σ) (fuel : Nat)
    (s : JobState σ) : iterCalls engine (fuel + 1) s ≠ [] := by
  cases hl : loopIter engine s <;> simp [iterCalls, hl]

theorem iterLoop_ok_trace {σ : Type} (engine : Engine σ) :
    ∀ (fuel : Nat) (s : JobState σ) (d : Bool) (u p : Nat) (fin : JobState σ),
      iterLoop engine fuel s = IterOutcome.ok d u p fin →
      p = s.outputSize
            + (((iterCalls engine fuel s).map
                fun c => (callOut engine c).written.length).sum)
      ∧ fin.input = s.input.drop
            (((iterCalls engine fuel s).map
                fun c => (callOut engine c).consumed).sum)
      ∧ u = fin.input.length
      ∧ p = fin.outputSize
      ∧ ((iterCalls engine fuel s).map
            fun c => (callOut engine c).result).getLast?
          = some (if d = true then RsResult.RS_DONE else RsResult.RS_BLOCKED) := by
  intro fuel
  induction fuel with
  | zero =>
    intro s d u p fin h
    exact absurd h (by simp [iterLoop])
  | succ n ih =>
    intro s d u p fin h
    simp only [iterLoop] at h
    cases hl : loopIter engine s with
    | finished d2 s2 =>
      rw [hl] at h
      obtain ⟨hs2, hres⟩ := loopIter_finished_inv engine s s2 d2 hl
      cases h
      subst hs2
      simp only [iterCalls, hl, List.map_cons, List.map_nil, List.sum_cons,
        List.sum_nil, List.getLast?_singleton]
      refine ⟨by simp, by simp, by trivial, by trivial, ?_⟩
      exact congrArg some hres
    | engineError code s2 =>
      rw [hl] at h
      cases h
    | next s2 =>
      rw [hl] at h
      obtain ⟨hp, hin, hu, hpfin, hlast⟩ := ih s2 d u p fin h
      obtain ⟨hs2, -, -, -⟩ := loopIter_next_inv engine s s2 hl
      subst hs2
      simp only [iterCalls, hl, List.map_cons, List.sum_cons]
      refine ⟨?_, ?_, hu, hpfin, ?_⟩
      · rw [hp]
        simp only [growOut_outputSize, applyEngine_outputSize]
        omega
      · rw [hin]
        simp only [growOut_input, applyEngine_input, List.drop_drop]
      · exact getLast?_cons_of_some _ _ _ hlast

theorem iterLoop_ok_cursor_le {σ : Type} (engine : Engine σ)
    (hw : ∀ (s0 : σ) (inp : List Nat) (e : Bool) (ao : Nat),
        (engine s0 inp e ao).written.length ≤ ao) :
    ∀ (fuel : Nat) (s : JobState σ) (d : Bool) (u p : Nat) (fin : JobState σ),
      s.outputSize ≤ s.out.length →
      iterLoop engine fuel s = IterOutcome.ok d u p fin →
      fin.outputSize ≤ fin.out.length := by
  intro fuel
  induction fuel with
  | zero =>
    intro s d u p fin hinv h
    exact absurd h (by simp [iterLoop])
  | succ n ih =>
    intro s d u p fin hinv h
    have hwlen : (callOut engine (mkCall s)).written.length
        ≤ s.out.length - s.outputSize := hw _ _ _ _
    have happly : (applyEngine engine s).outputSize
        ≤ (applyEngine engine s).out.length := by
      rw [applyEngine_out, applyEngine_outputSize,
        spliceWritten_length _ _ _ (by omega)]
      omega
    simp only [iterLoop] at h
    cases hl : loopIter engine s with
    | finished d2 s2 =>
      rw [hl] at h
      obtain ⟨hs2, -⟩ := loopIter_finished_inv engine s s2 d2 hl
      cases h
      subst hs2
      exact happly
    | engineError code s2 =>
      rw [hl] at h
      cases h
    | next s2 =>
      rw [hl] at h
      obtain ⟨hs2, -, -, -⟩ := loopIter_next_inv engine s s2 hl
      subst hs2
      refine ih _ d u p fin ?_ h
      rw [growOut_outputSize, growOut_out, resizeByteArray_length]
      have hgrow : (applyEngine engine s).out.length
          ≤ max IO_BUFFER_SIZE ((applyEngine engine s).out.length * 2) := by
        omega
      omega

/-! The claims. -/

/-- Claim C9: a capsule of the wrong kind passed to step (iter_job),
build-hash-table or begin-create-delta fails with TypeError before any
engine state is read or modified: the result is the TypeError and the
engine invocation trace of the call is empty. -/
theorem c9_wrong_capsule {σ τ : Type} (engine : Engine σ) (fuel : Nat)
    (s : SigObj) (input out_arr : List Nat) (st : σ)
    (rsBuild : SigObj → RsResult × SigObj) (dB : SigObj → Option τ) :
    iter_job engine fuel (Capsule.sigCapsule s) input out_arr
        = Except.error PyErrKind.typeError
    ∧ iter_jobCalls engine fuel (Capsule.sigCapsule s) input out_arr = []
    ∧ build_hash_table rsBuild (Capsule.jobCapsule st)
        = (Except.error PyErrKind.typeError, [])
    ∧ begin_create_delta dB (Capsule.jobCapsule st)
        = (Except.error PyErrKind.typeError, []) :=
  ⟨rfl, rfl, rfl, rfl⟩

/-- Claim C4 counterexample: with a Signature Object on which
build-hash-table was never run (hash_table_built = false), begin_create_delta
does not fail with StateError: it invokes the engine rs_delta_begin on the
unbuilt signature (the trace is nonempty) and returns the created job. -/
theorem c4_counterexample :
    begin_create_delta (σ := Unit) dbAlways
        (Capsule.sigCapsule { hash_table_built := false })
      = (Except.ok (), [{ hash_table_built := false }])
    ∧ (begin_create_delta (σ := Unit) dbAlways
        (Capsule.sigCapsule { hash_table_built := false })).1
      ≠ Except.error PyErrKind.stateError :=
  ⟨rfl, fun h => Except.noConfusion h⟩

/-- Claim C4, amended: begin_create_delta performs no check that the
signature's hash table was built and never raises StateError; for every
valid signature capsule, built or not, it invokes the engine rs_delta_begin
on the signature exactly once, returning the job on success and the
no-exception-set SystemError when the engine yields none.  Rejection of an
unbuilt signature is left entirely to the engine. -/
theorem c4_no_state_check {σ τ : Type} (dB : SigObj → Option τ) (s : SigObj) :
    (begin_create_delta (σ := σ) dB (Capsule.sigCapsule s)).2 = [s]
    ∧ (begin_create_delta (σ := σ) dB (Capsule.sigCapsule s)).1
        ≠ Except.error PyErrKind.stateError
    ∧ (∀ j : τ, dB s = some j →
        (begin_create_delta (σ := σ) dB (Capsule.sigCapsule s)).1 = Except.ok j)
    ∧ (dB s = none →
        (begin_create_delta (σ := σ) dB (Capsule.sigCapsule s)).1
          = Except.error PyErrKind.systemError) := by
  refine ⟨?_, ?_, ?_, ?_⟩
  · unfold begin_create_delta
    cases hdb : dB s <;> simp [hdb]
  · unfold begin_create_delta
    cases hdb : dB s <;> simp [hdb]
  · intro j hdb
    simp [begin_create_delta, hdb]
  · intro hdb
    simp [begin_create_delta, hdb]

/-- Claim C5 counterexample: a data-source callback that returns the
integer 5 when asked for len = 4 bytes does not make the step fail with
ProtocolError (engine code RS_INTERNAL_ERROR): copy_callback stores 5 into
the len out-parameter and reports RS_DONE, performing no range check; a
callback returning -1 likewise yields RS_DONE with len = SIZE_MAX and a
pending OverflowError. -/
theorem c5_counterexample :
    copy_callback pyOverCb 0 4
      = { result := RsResult.RS_DONE, len := 5, err_pending := false,
          cb_calls := [(4, 0)] }
    ∧ copy_callback pyNegCb 0 4
      = { result := RsResult.RS_DONE, len := SIZE_MAX, err_pending := true,
          cb_calls := [(4, 0)] }
    ∧ RsResult.RS_DONE ≠ RsResult.RS_INTERNAL_ERROR := by
  refine ⟨by decide, by decide, by decide⟩

/-- Claim C5, amended: copy_callback invokes the data-source callback with
a writable view of exactly len bytes and the offset pos; a raising callback
maps to the engine result RS_IO_ERROR (surfaced as IOError) and a
non-integer return maps to RS_INTERNAL_ERROR (ProtocolError), in both
cases leaving len untouched; an integer return, however, is stored into
len through PyLong_AsSize_t with no range validation: values greater than
len pass through unchecked with result RS_DONE, and negative or oversized
integers become SIZE_MAX with a pending OverflowError. -/
theorem c5_copy_callback_contract (cb : Nat → Int → CbOutcome) (pos : Int)
    (len : Nat) :
    (copy_callback cb pos len).cb_calls = [(len, pos)]
    ∧ (cb len pos = CbOutcome.raised →
        copy_callback cb pos len
          = { result := RsResult.RS_IO_ERROR, len := len,
              err_pending := false, cb_calls := [(len, pos)] })
    ∧ (cb len pos = CbOutcome.returns PyVal.other →
        copy_callback cb pos len
          = { result := RsResult.RS_INTERNAL_ERROR, len := len,
              err_pending := false, cb_calls := [(len, pos)] })
    ∧ (∀ n : Int, cb len pos = CbOutcome.returns (PyVal.int n) →
        copy_callback cb pos len
          = { result := RsResult.RS_DONE, len := (pyLongAsSizeT n).1,
              err_pending := (pyLongAsSizeT n).2, cb_calls := [(len, pos)] }) := by
  refine ⟨?_, ?_, ?_, ?_⟩
  · rcases hcb : cb len pos with _ | v
    · simp [copy_callback, hcb]
    · cases v <;> simp [copy_callback, hcb]
  · intro hcb
    simp [copy_callback, hcb]
  · intro hcb
    simp [copy_callback, hcb]
  · intro n hcb
    simp [copy_callback, hcb]

/-- Claim C8: begin_patch raises TypeError when the data-source argument is
not callable, before any job exists (no rs_patch_begin invocation, no
refcount change); when it is callable, the created job capsule stores the
callback as its context with a strong reference (the Py_INCREF at
creation), and destroying the capsule performs the matching release
(Py_CLEAR, a decref) - the reference is held for the whole lifetime and
released only at destruction. -/
theorem c8_begin_patch {α : Type} (pb : α → Option Unit) (cb : α) :
    (begin_patch pb cb false).result = Except.error PyErrKind.typeError
    ∧ (begin_patch pb cb false).engineCalls = []
    ∧ (begin_patch pb cb false).refOps = []
    ∧ (pb cb = some () →
        (begin_patch pb cb true).result = Except.ok { context := some cb }
        ∧ (begin_patch pb cb true).refOps = [RefOp.incref cb])
    ∧ free_job_with_callback_capsule { context := some cb }
        = [RefOp.decref cb] := by
  refine ⟨rfl, rfl, rfl, ?_, rfl⟩
  intro h
  constructor <;> simp [begin_patch, h]

/-- Claim C6: in every step call the job is told the input stream has ended
(eof_in set) if and only if the input chunk of that call has length zero:
every engine invocation of the call carries eof_in = decide (length = 0),
and at least one engine invocation happens whenever the fuel allows one. -/
theorem c6_eof_iff_empty_input {σ : Type} (engine : Engine σ) (fuel : Nat)
    (st : σ) (input out_arr : List Nat) :
    ((iterCalls engine fuel (initState st input out_arr)).all
        fun c => c.eof_in == decide (input.length = 0)) = true
    ∧ iterCalls engine (fuel + 1) (initState st input out_arr) ≠ [] := by
  constructor
  · have h := iterCalls_eof engine fuel (initState st input out_arr)
    simpa [isEmpty_eq_decide_length] using h
  · exact iterCalls_ne_nil engine fuel (initState st input out_arr)

/-- Claim C7 counterexample: on a job whose engine state is terminal (the
engine answers every iteration with RS_DONE consuming and producing
nothing), a step call with empty input does return (true, 0, 0), but it
does not perform zero engine work: rs_job_iter is invoked exactly once,
so the engine invocation trace is a singleton rather than empty. -/
theorem c7_counterexample :
    iter_job doneEngine 1 (Capsule.jobCapsule ()) [] [0, 0]
        = Except.ok (true, 0, 0)
    ∧ iter_jobCalls doneEngine 1 (Capsule.jobCapsule ()) [] [0, 0]
        = [{ st := (), input := [], eof_in := true, avail_out := 2 }] :=
  ⟨rfl, rfl⟩

/-- Claim C7, amended: once a job is done, provided the engine's completed
state is terminal (every further iteration with empty eof input reports
RS_DONE, consumes nothing and writes nothing), any further step call with
empty input returns (true, 0, 0); it performs exactly one engine
iteration, which is a no-op, rather than none at all. -/
theorem c7_idempotent_done {σ : Type} (engine : Engine σ) (st : σ)
    (out_arr : List Nat) (fuel : Nat)
    (hdone : ∀ ao : Nat, engine st [] true ao
        = { result := RsResult.RS_DONE, st := st, consumed := 0,
            written := ([] : List Nat) }) :
    iter_job engine (fuel + 1) (Capsule.jobCapsule st) [] out_arr
        = Except.ok (true, 0, 0)
    ∧ iter_jobCalls engine (fuel + 1) (Capsule.jobCapsule st) [] out_arr
        = [{ st := st, input := [], eof_in := true,
             avail_out := out_arr.length }] := by
  have hc : callOut engine (mkCall (initState st [] out_arr))
      = { result := RsResult.RS_DONE, st := st, consumed := 0,
          written := ([] : List Nat) } := hdone _
  have hl : loopIter engine (initState st [] out_arr)
      = LoopStep.finished true (applyEngine engine (initState st [] out_arr)) :=
    loopIter_done _ _ (by rw [hc])
  constructor
  · simp only [iter_job, iterLoop, hl]
    simp [hc]
  · simp only [iter_jobCalls, iterCalls, hl]
    simp [mkCall]

/-- Claim C3 counterexample: an engine iteration that returns the error
result RS_IO_ERROR while input remains unconsumed is not surfaced as an
EngineError and is not the last engine iteration of the call: with one
unconsumed input byte, the driver grows the output buffer and invokes the
engine again (two invocations within fuel 2), and the call raises no
RsyncError in those iterations - the error result is silently retried. -/
theorem c3_counterexample :
    (iter_jobCalls errEngine 2 (Capsule.jobCapsule ()) [7] [0]).length = 2
    ∧ iter_job errEngine 2 (Capsule.jobCapsule ()) [7] [0]
        ≠ Except.error (PyErrKind.rsyncError RsResult.RS_IO_ERROR) :=
  ⟨rfl, fun h => by cases h⟩

/-- Claim C3, amended: a step call fails with EngineError (RsyncError
carrying the engine's result code) exactly when the engine reports a
result other than RS_DONE and RS_BLOCKED and no unconsumed input remains,
and then that erroring iteration is the last engine invocation of the
call; when such a result is reported while unconsumed input remains, the
driver instead grows the output buffer and re-iterates the engine, so the
error code decides nothing by itself. -/
theorem c3_error_only_without_input {σ : Type} (engine : Engine σ)
    (s : JobState σ) (fuel : Nat)
    (h1 : (callOut engine (mkCall s)).result ≠ RsResult.RS_DONE)
    (h2 : (callOut engine (mkCall s)).result ≠ RsResult.RS_BLOCKED) :
    ((applyEngine engine s).input = [] →
      iterLoop engine (fuel + 1) s
          = IterOutcome.rsyncError (callOut engine (mkCall s)).result
              (applyEngine engine s)
        ∧ iterCalls engine (fuel + 1) s = [mkCall s])
    ∧ ((applyEngine engine s).input ≠ [] →
      iterLoop engine (fuel + 1) s
          = iterLoop engine fuel (growOut (applyEngine engine s))
        ∧ iterCalls engine (fuel + 1) s
            = mkCall s :: iterCalls engine fuel (growOut (applyEngine engine s))) := by
  constructor
  · intro hemp
    have hl := loopIter_err engine s h1 h2 hemp
    constructor
    · simp only [iterLoop, hl]
    · simp only [iterCalls, hl]
  · intro hne
    have hl := loopIter_grow engine s h1 h2 hne
    constructor
    · simp only [iterLoop, hl]
    · simp only [iterCalls, hl]

/-- Witness for the amended C3 at a concrete input: errEngine with no
input left raises the RsyncError at once and makes no further engine
invocation. -/
theorem c3_witness :
    iterLoop errEngine 1 (initState () [] [0])
        = IterOutcome.rsyncError RsResult.RS_IO_ERROR
            (applyEngine errEngine (initState () [] [0]))
    ∧ iterCalls errEngine 1 (initState () [] [0])
        = [mkCall (initState () [] [0])] :=
  (c3_error_only_without_input errEngine (initState () [] [0]) 0
      (by decide) (by decide)).1 rfl

/-- Witness for the amended C7 at a concrete input: the terminal doneEngine
on empty input returns the triple (true, 0, 0). -/
theorem c7_witness :
    iter_job doneEngine 1 (Capsule.jobCapsule ()) [] [0, 0]
        = Except.ok (true, 0, 0) :=
  (c7_idempotent_done doneEngine () [0, 0] 0 (fun _ => rfl)).1

/-- Claim C1: for every step call (iter_job) that returns without error,
the returned triple is (done, unused-input-length, bytes-produced): the
bytes-produced component is the sum over all loop iterations of the number
of bytes the engine wrote in that iteration (space before minus space
after); the unused-input component is the number of input bytes left after
dropping everything the engine consumed across the call; and done is true
exactly when the final engine result of the call is RS_DONE, false when it
is RS_BLOCKED. -/
theorem c1_step_triple_accounting {σ : Type} (engine : Engine σ) (fuel : Nat)
    (st : σ) (input out_arr : List Nat) (d : Bool) (u p : Nat)
    (h : iter_job engine fuel (Capsule.jobCapsule st) input out_arr
        = Except.ok (d, u, p)) :
    p = (((iter_jobCalls engine fuel (Capsule.jobCapsule st) input out_arr).map
          fun c => (callOut engine c).written.length).sum)
    ∧ u = (input.drop
          (((iter_jobCalls engine fuel (Capsule.jobCapsule st) input
              out_arr).map fun c => (callOut engine c).consumed).sum)).length
    ∧ ((iter_jobCalls engine fuel (Capsule.jobCapsule st) input out_arr).map
          fun c => (callOut engine c).result).getLast?
        = some (if d = true then RsResult.RS_DONE else RsResult.RS_BLOCKED) := by
  simp only [iter_job] at h
  cases hL : iterLoop engine fuel (initState st input out_arr) with
  | ok d2 u2 p2 fin =>
    rw [hL] at h
    simp only [Except.ok.injEq, Prod.mk.injEq] at h
    obtain ⟨rfl, rfl, rfl⟩ := h
    obtain ⟨hp, hin, hu, hpfin, hlast⟩ :=
      iterLoop_ok_trace engine fuel (initState st input out_arr) d2 u2 p2 fin hL
    simp only [iter_jobCalls]
    refine ⟨by simpa using hp, ?_, hlast⟩
    rw [hu, hin]
    simp
  | rsyncError code fin =>
    rw [hL] at h
    cases h
  | outOfFuel fin =>
    rw [hL] at h
    cases h

/-- Witness for C1 at a concrete input: witEngine consumes both input
bytes and finishes at once, so the triple is (true, 0, 0) and the trace
accounting holds at it. -/
theorem c1_witness :
    (0 : Nat)
      = (((iter_jobCalls witEngine 1 (Capsule.jobCapsule ()) [1, 2]
            [0, 0]).map fun c => (callOut witEngine c).written.length).sum)
    ∧ (0 : Nat)
      = (([1, 2] : List Nat).drop
          (((iter_jobCalls witEngine 1 (Capsule.jobCapsule ()) [1, 2]
              [0, 0]).map fun c => (callOut witEngine c).consumed).sum)).length
    ∧ ((iter_jobCalls witEngine 1 (Capsule.jobCapsule ()) [1, 2] [0, 0]).map
          fun c => (callOut witEngine c).result).getLast?
        = some (if true = true then RsResult.RS_DONE else RsResult.RS_BLOCKED) :=
  c1_step_triple_accounting witEngine 1 () [1, 2] [0, 0] true 0 0 rfl

/-- Claim C2: when an engine iteration reports neither RS_DONE nor
RS_BLOCKED and unconsumed input remains, the loop resumes (LoopStep.next)
with the output buffer grown to max(IO_BUFFER_SIZE, current size doubled),
where the current size is the bytearray size at the moment of growth; the
growth preserves every byte already written (the first bytes-produced
bytes of the buffer, including this iteration's writes, are unchanged);
and the input presented to the next engine invocation is exactly the
unconsumed suffix - already-consumed bytes are never re-delivered. -/
theorem c2_buffer_growth {σ : Type} (engine : Engine σ) (s : JobState σ)
    (h1 : (callOut engine (mkCall s)).result ≠ RsResult.RS_DONE)
    (h2 : (callOut engine (mkCall s)).result ≠ RsResult.RS_BLOCKED)
    (h3 : (applyEngine engine s).input ≠ [])
    (hpos : s.outputSize ≤ s.out.length)
    (hw : (callOut engine (mkCall s)).written.length
        ≤ s.out.length - s.outputSize) :
    loopIter engine s = LoopStep.next (growOut (applyEngine engine s))
    ∧ (growOut (applyEngine engine s)).out.length
        = max IO_BUFFER_SIZE (s.out.length * 2)
    ∧ (growOut (applyEngine engine s)).out.take
          (applyEngine engine s).outputSize
        = (applyEngine engine s).out.take (applyEngine engine s).outputSize
    ∧ (growOut (applyEngine engine s)).input
        = s.input.drop (callOut engine (mkCall s)).consumed
    ∧ (growOut (applyEngine engine s)).outputSize
        = s.outputSize + (callOut engine (mkCall s)).written.length
    ∧ (growOut (applyEngine engine s)).eof_in = s.eof_in := by
  have hsplice : (applyEngine engine s).out.length = s.out.length := by
    rw [applyEngine_out]
    exact spliceWritten_length _ _ _ (by omega)
  refine ⟨loopIter_grow engine s h1 h2 h3, ?_, ?_, by simp, by simp, by simp⟩
  · rw [growOut_out, resizeByteArray_length, hsplice]
  · rw [growOut_out]
    refine resizeByteArray_take _ _ _ ?_ ?_
    · rw [hsplice, applyEngine_outputSize]
      omega
    · omega

/-- Witness for C2 at a concrete input: growEngine reports RS_RUNNING with
one input byte consumed and one remaining, so the loop takes the growth
branch. -/
theorem c2_witness :
    (applyEngine growEngine (initState () [5, 6] [0, 0])).input ≠ []
    ∧ loopIter growEngine (initState () [5, 6] [0, 0])
        = LoopStep.next
            (growOut (applyEngine growEngine (initState () [5, 6] [0, 0]))) :=
  ⟨by decide,
    (c2_buffer_growth growEngine (initState () [5, 6] [0, 0]) (by decide)
        (by decide) (by decide) (by decide) (by decide)).1⟩

/-- Claim C10: every step call that returns without error satisfies
unused-input-length at most the input chunk length, bytes-produced at most
the final size of the output buffer after any growth, and a call with an
empty input chunk returns unused-input-length zero (the well-formedness
hypothesis on the abstract engine is that it never writes more bytes than
the output space it was given). -/
theorem c10_bounds {σ : Type} (engine : Engine σ) (fuel : Nat) (st : σ)
    (input out_arr : List Nat) (d : Bool) (u p : Nat) (fin : JobState σ)
    (hw : ∀ (s0 : σ) (inp : List Nat) (e : Bool) (ao : Nat),
        (engine s0 inp e ao).written.length ≤ ao)
    (h : iterLoop engine fuel (initState st input out_arr)
        = IterOutcome.ok d u p fin) :
    u ≤ input.length ∧ p ≤ fin.out.length ∧ (input = [] → u = 0) := by
  obtain ⟨hp, hin, hu, hpfin, -⟩ :=
    iterLoop_ok_trace engine fuel (initState st input out_arr) d u p fin h
  have hcur := iterLoop_ok_cursor_le engine hw fuel (initState st input out_arr)
    d u p fin (by simp) h
  refine ⟨?_, ?_, ?_⟩
  · rw [hu, hin]
    simp only [initState_input, List.length_drop]
    omega
  · rw [hpfin]
    exact hcur
  · intro hnil
    subst hnil
    rw [hu, hin]
    simp

/-- Witness for C10 at a concrete input: witEngine finishes at once
consuming the whole chunk, and the bounds hold at the resulting state. -/
theorem c10_witness :
    (0 : Nat) ≤ ([1, 2] : List Nat).length
    ∧ (0 : Nat)
        ≤ ({ engineState := (), input := [], eof_in := false, out := [0, 0], outputSize := 0 } : JobState Unit).out.length
    ∧ (([1, 2] : List Nat) = [] → (0 : Nat) = 0) :=
  c10_bounds witEngine 1 () [1, 2] [0, 0] true 0 0
    { engineState := (), input := [], eof_in := false, out := [0, 0], outputSize := 0 }
    (fun _ _ _ _ => Nat.zero_le _) rfl

end Rsync
